import Mathlib

/-!
Verification of the CAN-bus interface controller of libdigiapix
(src/can.c, src/can_netlink.c) against its natural-language
specification.  The C functions are shallowly embedded as Lean
functions; external effects (netlink round-trips, socket system calls,
mutex operations) are passed in as explicit oracle values describing
their outcomes, and the observable behaviour (return code, updated
handle state, invoked callbacks, attempted external calls) is returned.
-/

/-! ## Error codes (enum in include/public/can.h, values in declaration order) -/

def CAN_ERROR_NONE : Nat := 0
def CAN_ERROR_NULL_INTERFACE : Nat := 1
def CAN_ERROR_IFR_IDX : Nat := 2
def CAN_ERROR_NO_MEM : Nat := 3
def CAN_ERROR_NL_GET_STATE : Nat := 4
def CAN_ERROR_NL_START : Nat := 5
def CAN_ERROR_NL_STOP : Nat := 6
def CAN_ERROR_NL_STATE_MISSMATCH : Nat := 7
def CAN_ERROR_NL_BITRATE : Nat := 8
def CAN_ERROR_NL_RESTART : Nat := 9
def CAN_ERROR_NL_SET_RESTART_MS : Nat := 10
def CAN_ERROR_NL_GET_RESTART_MS : Nat := 11
def CAN_ERROR_NL_RSTMS_MISSMATCH : Nat := 12
def CAN_ERROR_NL_SET_CTRL_MODE : Nat := 13
def CAN_ERROR_NL_GET_CTRL_MODE : Nat := 14
def CAN_ERROR_NL_CTRL_MISSMATCH : Nat := 15
def CAN_ERROR_NL_GET_DEV_STATS : Nat := 16
def CAN_ERROR_NL_BT_MISSMATCH : Nat := 17
def CAN_ERROR_NL_SET_BIT_TIMING : Nat := 18
def CAN_ERROR_NL_GET_BIT_TIMING : Nat := 19
def CAN_ERROR_NL_GET_BIT_ERR_CNT : Nat := 20
def CAN_ERROR_NL_BR_MISSMATCH : Nat := 21
def CAN_ERROR_TX_SKT_CREATE : Nat := 22
def CAN_ERROR_TX_SKT_WR : Nat := 23
def CAN_ERROR_TX_SKT_BIND : Nat := 24
def CAN_ERROR_TX_RETRY_LATER : Nat := 25
def CAN_ERROR_INCOMP_FRAME : Nat := 26
def CAN_ERROR_NETWORK_DOWN : Nat := 27
def CAN_ERROR_RX_SKT_CREATE : Nat := 28
def CAN_ERROR_RX_SKT_BIND : Nat := 29
def CAN_ERROR_SETSKTOPT_RAW_FLT : Nat := 30
def CAN_ERROR_SETSKTOPT_ERR_FLT : Nat := 31
def CAN_ERROR_SETSKTOPT_CANFD : Nat := 32
def CAN_ERROR_SETSKTOPT_TIMESTAMP : Nat := 33
def CAN_ERROR_SETSKTOPT_SNDBUF : Nat := 34
def CAN_ERROR_GETSKTOPT_SNDBUF : Nat := 35
def CAN_ERROR_SETSKTOPT_RCVBUF : Nat := 36
def CAN_ERROR_GETSKTOPT_RCVBUF : Nat := 37
def CAN_ERROR_SIOCGIFMTU : Nat := 38
def CAN_ERROR_NOT_CANFD : Nat := 39
def CAN_ERROR_THREAD_CREATE : Nat := 40
def CAN_ERROR_THREAD_ALLOC : Nat := 41
def CAN_ERROR_THREAD_MUTEX_INIT : Nat := 42
def CAN_ERROR_THREAD_MUTEX_LOCK : Nat := 43
def CAN_ERROR_REG_ERR_HDLR : Nat := 44
def CAN_ERROR_DROPPED_FRAMES : Nat := 45
def CAN_ERROR_RX_CB_NOT_FOUND : Nat := 46
def CAN_ERROR_RX_CB_ALR_REG : Nat := 47
def CAN_ERROR_ERR_CB_NOT_FOUND : Nat := 48
def CAN_ERROR_ERR_CB_ALR_REG : Nat := 49

/-- `__CAN_ERR_LAST - 1` -/
def CAN_ERROR_MAX : Nat := 49

/-! ## Kernel constants (linux/can.h, linux/can/error.h, linux/can/netlink.h, errno.h) -/

def CAN_ERR_FLAG : Nat := 0x20000000

def CAN_ERR_TX_TIMEOUT : Nat := 0x00000001
def CAN_ERR_CRTL : Nat := 0x00000004
def CAN_ERR_BUSOFF : Nat := 0x00000040
def CAN_ERR_BUSERROR : Nat := 0x00000080
def CAN_ERR_RESTARTED : Nat := 0x00000100

def CAN_STATE_ERROR_ACTIVE : Nat := 0
def CAN_STATE_STOPPED : Nat := 4

def CAN_MTU : Nat := 16
def CANFD_MTU : Nat := 72

def EAGAIN : Nat := 11
def ENOBUFS : Nat := 105
def ENETDOWN : Nat := 100

def LDX_CAN_INVALID_BITRATE : Nat := 0
def LDX_CAN_INVALID_RESTART_MS : Nat := 0
def LDX_CAN_UNCONFIGURED_MASK : Nat := 0

/-! ## Frame length / DLC conversion tables (src/can.c lines 37-58) -/

/-- CAN DLC to real data length conversion table (`dlc2len` in src/can.c). -/
def dlc2len : List Nat := [0, 1, 2, 3, 4, 5, 6, 7, 8, 12, 16, 20, 24, 32, 48, 64]

/-- `can_dlc2len`: get data length from can_dlc with sanitized can_dlc. -/
def can_dlc2len (can_dlc : Nat) : Nat := dlc2len.getD (can_dlc &&& 0x0F) 0

/-- Data length to DLC table (`len2dlc` in src/can.c), indexed 0..64. -/
def len2dlc : List Nat :=
  [0, 1, 2, 3, 4, 5, 6, 7, 8,
   9, 9, 9, 9,
   10, 10, 10, 10,
   11, 11, 11, 11,
   12, 12, 12, 12,
   13, 13, 13, 13, 13, 13, 13, 13,
   14, 14, 14, 14, 14, 14, 14, 14,
   14, 14, 14, 14, 14, 14, 14, 14,
   15, 15, 15, 15, 15, 15, 15, 15,
   15, 15, 15, 15, 15, 15, 15, 15]

/-- The `CAN_LEN2DLC` macro: map the data length to a data length code. -/
def CAN_LEN2DLC (len : Nat) : Nat := if len > 64 then 0xF else len2dlc.getD len 0

/-- Composition applied by `ldx_can_tx_frame` on FD-enabled handles:
`can_dlc2len(CAN_LEN2DLC(len))`. -/
def canonFdLen (len : Nat) : Nat := can_dlc2len (CAN_LEN2DLC len)

/-- The 16 canonical FD payload lengths. -/
def canonicalFdLens : List Nat := [0, 1, 2, 3, 4, 5, 6, 7, 8, 12, 16, 20, 24, 32, 48, 64]

/-! ## Data model (include/public/can.h) -/

/-- `struct can_bittiming` (linux/can/netlink.h): eight u32 fields, no padding,
so `memcmp` equality coincides with field-wise equality. -/
structure CanBittiming where
  bitrate : Nat
  sample_point : Nat
  tq : Nat
  prop_seg : Nat
  phase_seg1 : Nat
  phase_seg2 : Nat
  sjw : Nat
  brp : Nat
deriving DecidableEq, Repr

/-- `struct can_ctrlmode` (linux/can/netlink.h): two u32 fields. -/
structure CanCtrlmode where
  mask : Nat
  flags : Nat
deriving DecidableEq, Repr

/-- `can_if_cfg_t` (include/public/can.h). -/
structure CanIfCfg where
  nl_cmd_verify : Bool
  canfd_enabled : Bool
  process_header : Bool
  hw_timestamp : Bool
  rx_buf_len : Int
  tx_buf_len : Int
  rx_buf_len_rd : Int
  tx_buf_len_rd : Int
  bitrate : Nat
  dbitrate : Nat
  restart_ms : Nat
  error_mask : Nat
  bit_timing : CanBittiming
  dbit_timing : CanBittiming
  ctrl_mode : CanCtrlmode
deriving DecidableEq, Repr

/-- A receive registration (`can_cb_t` in include/private/_can.h): the
callback identity (function pointer, modelled as `Option Nat`, `none`
standing for a NULL pointer) and its dedicated receive socket. -/
structure RxCb where
  handler : Option Nat
  rx_skt : Nat
deriving DecidableEq, Repr

/-- An error registration (`can_err_cb_t`): just the callback identity. -/
structure ErrCb where
  handler : Option Nat
deriving DecidableEq, Repr

/-- The private runtime state (`can_priv_t`): transmit socket, readiness
set (an fd_set, modelled as a list treated as a set of descriptors),
maximum descriptor, and the two callback registries. -/
structure CanPriv where
  tx_skt : Nat
  can_fds : List Nat
  maxfd : Nat
  rx_cbs : List RxCb
  err_cbs : List ErrCb
deriving DecidableEq, Repr

/-- `can_if_t`: interface name, configuration snapshot, dropped-frame
counter and private data. -/
structure CanIf where
  name : String
  cfg : CanIfCfg
  dropped_frames : Nat
  priv : CanPriv
deriving DecidableEq, Repr

/-- `FD_SET` on the modelled readiness set. -/
def fdSet (fd : Nat) (fds : List Nat) : List Nat :=
  if fd ∈ fds then fds else fd :: fds

/-- `FD_CLR` on the modelled readiness set. -/
def fdClr (fd : Nat) (fds : List Nat) : List Nat :=
  fds.filter (fun x => x ≠ fd)

/-! ## ldx_can_set_defconfig (src/can.c lines 120-135) -/

/-- `ldx_can_set_defconfig`: assigns the default values to the given
configuration record (other fields are left untouched). -/
def ldx_can_set_defconfig (cfg : CanIfCfg) : CanIfCfg :=
  { cfg with
    nl_cmd_verify := true
    canfd_enabled := false
    process_header := true
    hw_timestamp := false
    bitrate := LDX_CAN_INVALID_BITRATE
    dbitrate := LDX_CAN_INVALID_BITRATE
    restart_ms := LDX_CAN_INVALID_RESTART_MS
    ctrl_mode := { cfg.ctrl_mode with mask := LDX_CAN_UNCONFIGURED_MASK }
    error_mask := CAN_ERR_TX_TIMEOUT ||| CAN_ERR_CRTL ||| CAN_ERR_BUSOFF |||
                  CAN_ERR_BUSERROR ||| CAN_ERR_RESTARTED }

/-! ## ldx_can_strerror (src/can.c lines 62-118) -/

/-- The `__can_error_str` designated-initializer array: indices that are
given a message map to it, all other indices hold NULL. -/
def __can_error_str (i : Nat) : Option String :=
  if i = CAN_ERROR_NONE then some "Success"
  else if i = CAN_ERROR_NULL_INTERFACE then some "CAN interface is NULL"
  else if i = CAN_ERROR_IFR_IDX then some "Interface index error"
  else if i = CAN_ERROR_NO_MEM then some "No memory"
  else if i = CAN_ERROR_NL_GET_STATE then some "Get netlink interface state"
  else if i = CAN_ERROR_NL_START then some "Start interface"
  else if i = CAN_ERROR_NL_STOP then some "Stop interface"
  else if i = CAN_ERROR_NL_STATE_MISSMATCH then some "Netlink state set does not match value read"
  else if i = CAN_ERROR_NL_BITRATE then some "Set interface bitrate"
  else if i = CAN_ERROR_NL_RESTART then some "Restart interface error"
  else if i = CAN_ERROR_NL_SET_RESTART_MS then some "Set restart ms error"
  else if i = CAN_ERROR_NL_GET_RESTART_MS then some "Get restart ms error"
  else if i = CAN_ERROR_NL_RSTMS_MISSMATCH then some "Restart ms value set does not match value read"
  else if i = CAN_ERROR_NL_SET_CTRL_MODE then some "Set ctrl mode error"
  else if i = CAN_ERROR_NL_GET_CTRL_MODE then some "Get ctrl mode error"
  else if i = CAN_ERROR_NL_CTRL_MISSMATCH then some "Get ctrl mode value set does not match value read"
  else if i = CAN_ERROR_NL_GET_DEV_STATS then some "Get device statistics error"
  else if i = CAN_ERROR_NL_SET_BIT_TIMING then some "Set bit timing error"
  else if i = CAN_ERROR_NL_GET_BIT_TIMING then some "Get bit timing error"
  else if i = CAN_ERROR_NL_BT_MISSMATCH then some "Bit timing value set does not match value read"
  else if i = CAN_ERROR_NL_GET_BIT_ERR_CNT then some "Get bit error counter error"
  else if i = CAN_ERROR_NL_BR_MISSMATCH then some "Bitrate value set does not match value read"
  else if i = CAN_ERROR_TX_SKT_CREATE then some "Socket create error"
  else if i = CAN_ERROR_TX_SKT_WR then some "Socket write error"
  else if i = CAN_ERROR_TX_SKT_BIND then some "Socket bind error"
  else if i = CAN_ERROR_TX_RETRY_LATER then some "TX retry later"
  else if i = CAN_ERROR_INCOMP_FRAME then some "Incomplete TX frame"
  else if i = CAN_ERROR_SETSKTOPT_RAW_FLT then some "setsocketopt CAN_RAW_FILTER error"
  else if i = CAN_ERROR_SETSKTOPT_ERR_FLT then some "setsocketopt CAN_RAW_ERR_FILTER error"
  else if i = CAN_ERROR_SETSKTOPT_CANFD then some "setsocketopt CAN_RAW_FD_FRAMES error"
  else if i = CAN_ERROR_SETSKTOPT_TIMESTAMP then some "setsocketopt SO_TIMESTAMP error"
  else if i = CAN_ERROR_SETSKTOPT_SNDBUF then some "setsocketopt SO_SNDBUF error"
  else if i = CAN_ERROR_GETSKTOPT_SNDBUF then some "getsocketopt SO_SNDBUF error"
  else if i = CAN_ERROR_SETSKTOPT_RCVBUF then some "setsocketopt SO_RCVBUF error"
  else if i = CAN_ERROR_GETSKTOPT_RCVBUF then some "getsocketopt SO_RCVBUF error"
  else if i = CAN_ERROR_DROPPED_FRAMES then some "Dropped frames"
  else none

/-- `ldx_can_strerror`: the string for the error, NULL outside
`0 < error < CAN_ERROR_MAX`. -/
def ldx_can_strerror (error : Int) : Option String :=
  if error > 0 ∧ error < (CAN_ERROR_MAX : Int) then __can_error_str error.toNat
  else none

/-! ## Theorems for C3, C9, C10 (operation-level claims appear further below) -/

/-- C3 (part): over lengths 0..64 the tx canonicalization
`can_dlc2len (CAN_LEN2DLC len)` lands in the canonical set, is the least
canonical length at least `len` (so 9..11 map to 12, 13..16 to 16, and
so on), fixes every canonical length, and is idempotent. -/
theorem canonFdLen_table_correct :
    ∀ len, len ≤ 64 →
      canonFdLen len ∈ canonicalFdLens ∧
      len ≤ canonFdLen len ∧
      (∀ m ∈ canonicalFdLens, len ≤ m → canonFdLen len ≤ m) ∧
      (len ∈ canonicalFdLens → canonFdLen len = len) ∧
      canonFdLen (canonFdLen len) = canonFdLen len := by
  decide

/-- C9: `ldx_can_set_defconfig` sets verification on, FD off, header
processing on, hardware timestamp off, the three unconfigured sentinels,
the unconfigured control-mode mask, and the default error mask union. -/
theorem set_defconfig_defaults (cfg : CanIfCfg) :
    (ldx_can_set_defconfig cfg).nl_cmd_verify = true ∧
    (ldx_can_set_defconfig cfg).canfd_enabled = false ∧
    (ldx_can_set_defconfig cfg).process_header = true ∧
    (ldx_can_set_defconfig cfg).hw_timestamp = false ∧
    (ldx_can_set_defconfig cfg).bitrate = LDX_CAN_INVALID_BITRATE ∧
    (ldx_can_set_defconfig cfg).dbitrate = LDX_CAN_INVALID_BITRATE ∧
    (ldx_can_set_defconfig cfg).restart_ms = LDX_CAN_INVALID_RESTART_MS ∧
    (ldx_can_set_defconfig cfg).ctrl_mode.mask = LDX_CAN_UNCONFIGURED_MASK ∧
    (ldx_can_set_defconfig cfg).error_mask =
      (CAN_ERR_TX_TIMEOUT ||| CAN_ERR_CRTL ||| CAN_ERR_BUSOFF |||
       CAN_ERR_BUSERROR ||| CAN_ERR_RESTARTED) := by
  refine ⟨rfl, rfl, rfl, rfl, rfl, rfl, rfl, rfl, rfl⟩

/-- C10: `ldx_can_strerror` returns NULL outside `0 < e < CAN_ERROR_MAX`
(in particular for the success code 0, for negatives, and for the
highest defined error `CAN_ERROR_ERR_CB_ALR_REG = 49`), and returns NULL
for the in-range codes that have no entry in `__can_error_str`
(network-down, rx-socket create/bind, the thread-class codes 40..43, and
the callback-class codes 46..48). -/
theorem strerror_null_ranges :
    (∀ e : Int, ldx_can_strerror e ≠ none → 0 < e ∧ e < 49) ∧
    ldx_can_strerror 0 = none ∧
    (∀ e : Int, e < 0 → ldx_can_strerror e = none) ∧
    ldx_can_strerror (CAN_ERROR_ERR_CB_ALR_REG : Int) = none ∧
    ldx_can_strerror (CAN_ERROR_NETWORK_DOWN : Int) = none ∧
    ldx_can_strerror (CAN_ERROR_RX_SKT_CREATE : Int) = none ∧
    ldx_can_strerror (CAN_ERROR_RX_SKT_BIND : Int) = none ∧
    ldx_can_strerror (CAN_ERROR_THREAD_CREATE : Int) = none ∧
    ldx_can_strerror (CAN_ERROR_THREAD_ALLOC : Int) = none ∧
    ldx_can_strerror (CAN_ERROR_THREAD_MUTEX_INIT : Int) = none ∧
    ldx_can_strerror (CAN_ERROR_THREAD_MUTEX_LOCK : Int) = none ∧
    ldx_can_strerror (CAN_ERROR_RX_CB_NOT_FOUND : Int) = none ∧
    ldx_can_strerror (CAN_ERROR_RX_CB_ALR_REG : Int) = none ∧
    ldx_can_strerror (CAN_ERROR_ERR_CB_NOT_FOUND : Int) = none := by
  refine ⟨?_, by decide, ?_, by decide, by decide, by decide, by decide, by decide,
         by decide, by decide, by decide, by decide, by decide, by decide⟩
  · intro e he
    by_contra hc
    apply he
    unfold ldx_can_strerror
    rw [if_neg]
    intro ⟨h1, h2⟩
    exact hc ⟨h1, h2⟩
  · intro e he
    unfold ldx_can_strerror
    rw [if_neg]
    intro ⟨h1, _⟩
    omega

/-- Witness for `canonFdLen_table_correct` at length 9 (maps to 12). -/
theorem canonFdLen_table_correct_witness :
    canonFdLen 9 ∈ canonicalFdLens ∧ canonFdLen 9 = 12 :=
  ⟨(canonFdLen_table_correct 9 (by decide)).1, by decide⟩

/-- Witness for `strerror_null_ranges` at codes 1 and -3. -/
theorem strerror_null_ranges_witness :
    ((0 : Int) < 1 ∧ (1 : Int) < 49) ∧ ldx_can_strerror (-3) = none :=
  ⟨strerror_null_ranges.1 1 (by decide), strerror_null_ranges.2.2.1 (-3) (by decide)⟩

/-! ## Netlink configurator (src/can_netlink.c)

Each operation is parameterized by the outcomes of the underlying
libsocketcan netlink calls (`can_set_bitrate`, `can_get_bittiming`, ...):
the return value of each call it may issue and the value such a call
would read back.  The result is the returned error code together with
the list of netlink calls actually attempted. -/

/-- External calls a CAN operation may attempt (netlink round-trips and
socket system calls), recorded for the call-trace of each model. -/
inductive ExtCall where
  | nlSetBitrate
  | nlGetBittiming
  | nlSetDataBitrate
  | nlGetDataBittiming
  | nlSetRestartMs
  | nlGetRestartMs
  | nlSetBittiming
  | nlSetDataBittiming
  | nlSetCtrlmode
  | nlGetCtrlmode
  | nlDoStart
  | nlDoStop
  | nlDoRestart
  | nlGetState
  | nlGetDevStats
  | nlGetBerrCounter
  | sktCreate
  | sktWrite
  | sktBind
  | sktClose (fd : Nat)
  | sktIoctl
  | sktSetsockopt
  | sktGetsockopt
  | sktFcntl
deriving DecidableEq, Repr

/-- `ldx_can_get_state`: null check, then one netlink get. -/
def ldx_can_get_state (cif : Option CanIf) (get_ret : Int) : Int × List ExtCall :=
  match cif with
  | none => (-(CAN_ERROR_NULL_INTERFACE : Int), [])
  | some _ =>
    if get_ret ≠ 0 then (-(CAN_ERROR_NL_GET_STATE : Int), [ExtCall.nlGetState])
    else ((CAN_ERROR_NONE : Int), [ExtCall.nlGetState])

/-- `ldx_can_get_dev_stats`: null check, then one netlink get. -/
def ldx_can_get_dev_stats (cif : Option CanIf) (get_ret : Int) : Int × List ExtCall :=
  match cif with
  | none => (-(CAN_ERROR_NULL_INTERFACE : Int), [])
  | some _ =>
    if get_ret ≠ 0 then (-(CAN_ERROR_NL_GET_DEV_STATS : Int), [ExtCall.nlGetDevStats])
    else ((CAN_ERROR_NONE : Int), [ExtCall.nlGetDevStats])

/-- `ldx_can_get_bit_error_counter`: null check, then one netlink get. -/
def ldx_can_get_bit_error_counter (cif : Option CanIf) (get_ret : Int) : Int × List ExtCall :=
  match cif with
  | none => (-(CAN_ERROR_NULL_INTERFACE : Int), [])
  | some _ =>
    if get_ret ≠ 0 then (-(CAN_ERROR_NL_GET_BIT_ERR_CNT : Int), [ExtCall.nlGetBerrCounter])
    else ((CAN_ERROR_NONE : Int), [ExtCall.nlGetBerrCounter])

/-- `ldx_can_start`: `can_do_start`, then, when verification is enabled,
read the state back and require `CAN_STATE_ERROR_ACTIVE`. -/
def ldx_can_start (cif : Option CanIf) (start_ret : Int) (getstate_ret : Int)
    (state : Nat) : Int × List ExtCall :=
  match cif with
  | none => (-(CAN_ERROR_NULL_INTERFACE : Int), [])
  | some c =>
    if start_ret ≠ 0 then (-(CAN_ERROR_NL_START : Int), [ExtCall.nlDoStart])
    else if c.cfg.nl_cmd_verify then
      if getstate_ret ≠ 0 then
        (-(CAN_ERROR_NL_GET_STATE : Int), [ExtCall.nlDoStart, ExtCall.nlGetState])
      else if state ≠ CAN_STATE_ERROR_ACTIVE then
        (-(CAN_ERROR_NL_STATE_MISSMATCH : Int), [ExtCall.nlDoStart, ExtCall.nlGetState])
      else ((CAN_ERROR_NONE : Int), [ExtCall.nlDoStart, ExtCall.nlGetState])
    else ((CAN_ERROR_NONE : Int), [ExtCall.nlDoStart])

/-- `ldx_can_stop`: `can_do_stop`, then, when verification is enabled,
read the state back and require `CAN_STATE_STOPPED`. -/
def ldx_can_stop (cif : Option CanIf) (stop_ret : Int) (getstate_ret : Int)
    (state : Nat) : Int × List ExtCall :=
  match cif with
  | none => (-(CAN_ERROR_NULL_INTERFACE : Int), [])
  | some c =>
    if stop_ret ≠ 0 then (-(CAN_ERROR_NL_STOP : Int), [ExtCall.nlDoStop])
    else if c.cfg.nl_cmd_verify then
      if getstate_ret ≠ 0 then
        (-(CAN_ERROR_NL_GET_STATE : Int), [ExtCall.nlDoStop, ExtCall.nlGetState])
      else if state ≠ CAN_STATE_STOPPED then
        (-(CAN_ERROR_NL_STATE_MISSMATCH : Int), [ExtCall.nlDoStop, ExtCall.nlGetState])
      else ((CAN_ERROR_NONE : Int), [ExtCall.nlDoStop, ExtCall.nlGetState])
    else ((CAN_ERROR_NONE : Int), [ExtCall.nlDoStop])

/-- `ldx_can_restart`: `can_do_restart`, then, when verification is
enabled, read the state back and require `CAN_STATE_ERROR_ACTIVE`. -/
def ldx_can_restart (cif : Option CanIf) (restart_ret : Int) (getstate_ret : Int)
    (state : Nat) : Int × List ExtCall :=
  match cif with
  | none => (-(CAN_ERROR_NULL_INTERFACE : Int), [])
  | some c =>
    if restart_ret ≠ 0 then (-(CAN_ERROR_NL_RESTART : Int), [ExtCall.nlDoRestart])
    else if c.cfg.nl_cmd_verify then
      if getstate_ret ≠ 0 then
        (-(CAN_ERROR_NL_GET_STATE : Int), [ExtCall.nlDoRestart, ExtCall.nlGetState])
      else if state ≠ CAN_STATE_ERROR_ACTIVE then
        (-(CAN_ERROR_NL_STATE_MISSMATCH : Int), [ExtCall.nlDoRestart, ExtCall.nlGetState])
      else ((CAN_ERROR_NONE : Int), [ExtCall.nlDoRestart, ExtCall.nlGetState])
    else ((CAN_ERROR_NONE : Int), [ExtCall.nlDoRestart])

/-- `ldx_can_set_bitrate`: `can_set_bitrate`, then, when verification is
enabled, `can_get_bittiming` and compare the bitrate field. -/
def ldx_can_set_bitrate (cif : Option CanIf) (bitrate : Nat) (set_ret : Int)
    (get_ret : Int) (bt_read : CanBittiming) : Int × List ExtCall :=
  match cif with
  | none => (-(CAN_ERROR_NULL_INTERFACE : Int), [])
  | some c =>
    if set_ret ≠ 0 then (-(CAN_ERROR_NL_BITRATE : Int), [ExtCall.nlSetBitrate])
    else if c.cfg.nl_cmd_verify then
      if get_ret ≠ 0 then
        (-(CAN_ERROR_NL_GET_BIT_TIMING : Int), [ExtCall.nlSetBitrate, ExtCall.nlGetBittiming])
      else if bt_read.bitrate ≠ bitrate then
        (-(CAN_ERROR_NL_BR_MISSMATCH : Int), [ExtCall.nlSetBitrate, ExtCall.nlGetBittiming])
      else ((CAN_ERROR_NONE : Int), [ExtCall.nlSetBitrate, ExtCall.nlGetBittiming])
    else ((CAN_ERROR_NONE : Int), [ExtCall.nlSetBitrate])

/-- `ldx_can_set_data_bitrate`: `can_set_data_bitrate`, then, when
verification is enabled, `can_get_data_bittiming` and compare. -/
def ldx_can_set_data_bitrate (cif : Option CanIf) (dbitrate : Nat) (set_ret : Int)
    (get_ret : Int) (dbt_read : CanBittiming) : Int × List ExtCall :=
  match cif with
  | none => (-(CAN_ERROR_NULL_INTERFACE : Int), [])
  | some c =>
    if set_ret ≠ 0 then (-(CAN_ERROR_NL_BITRATE : Int), [ExtCall.nlSetDataBitrate])
    else if c.cfg.nl_cmd_verify then
      if get_ret ≠ 0 then
        (-(CAN_ERROR_NL_GET_BIT_TIMING : Int), [ExtCall.nlSetDataBitrate, ExtCall.nlGetDataBittiming])
      else if dbt_read.bitrate ≠ dbitrate then
        (-(CAN_ERROR_NL_BR_MISSMATCH : Int), [ExtCall.nlSetDataBitrate, ExtCall.nlGetDataBittiming])
      else ((CAN_ERROR_NONE : Int), [ExtCall.nlSetDataBitrate, ExtCall.nlGetDataBittiming])
    else ((CAN_ERROR_NONE : Int), [ExtCall.nlSetDataBitrate])

/-- `ldx_can_set_restart_ms`: `can_set_restart_ms`, then, when
verification is enabled, `can_get_restart_ms` and compare. -/
def ldx_can_set_restart_ms (cif : Option CanIf) (restart_ms : Nat) (set_ret : Int)
    (get_ret : Int) (read_restart_ms : Nat) : Int × List ExtCall :=
  match cif with
  | none => (-(CAN_ERROR_NULL_INTERFACE : Int), [])
  | some c =>
    if set_ret ≠ 0 then (-(CAN_ERROR_NL_SET_RESTART_MS : Int), [ExtCall.nlSetRestartMs])
    else if c.cfg.nl_cmd_verify then
      if get_ret ≠ 0 then
        (-(CAN_ERROR_NL_GET_RESTART_MS : Int), [ExtCall.nlSetRestartMs, ExtCall.nlGetRestartMs])
      else if restart_ms ≠ read_restart_ms then
        (-(CAN_ERROR_NL_RSTMS_MISSMATCH : Int), [ExtCall.nlSetRestartMs, ExtCall.nlGetRestartMs])
      else ((CAN_ERROR_NONE : Int), [ExtCall.nlSetRestartMs, ExtCall.nlGetRestartMs])
    else ((CAN_ERROR_NONE : Int), [ExtCall.nlSetRestartMs])

/-- `ldx_can_set_bit_timing`: `can_set_bittiming`, then, when
verification is enabled, `can_get_bittiming` and `memcmp` the structs
(structural equality, as `can_bittiming` has no padding). -/
def ldx_can_set_bit_timing (cif : Option CanIf) (bt : CanBittiming) (set_ret : Int)
    (get_ret : Int) (bt_read : CanBittiming) : Int × List ExtCall :=
  match cif with
  | none => (-(CAN_ERROR_NULL_INTERFACE : Int), [])
  | some c =>
    if set_ret ≠ 0 then (-(CAN_ERROR_NL_SET_BIT_TIMING : Int), [ExtCall.nlSetBittiming])
    else if c.cfg.nl_cmd_verify then
      if get_ret ≠ 0 then
        (-(CAN_ERROR_NL_GET_BIT_TIMING : Int), [ExtCall.nlSetBittiming, ExtCall.nlGetBittiming])
      else if bt ≠ bt_read then
        (-(CAN_ERROR_NL_BT_MISSMATCH : Int), [ExtCall.nlSetBittiming, ExtCall.nlGetBittiming])
      else ((CAN_ERROR_NONE : Int), [ExtCall.nlSetBittiming, ExtCall.nlGetBittiming])
    else ((CAN_ERROR_NONE : Int), [ExtCall.nlSetBittiming])

/-- `ldx_can_set_data_bit_timing`: like `ldx_can_set_bit_timing` with the
data-phase calls. -/
def ldx_can_set_data_bit_timing (cif : Option CanIf) (dbt : CanBittiming) (set_ret : Int)
    (get_ret : Int) (dbt_read : CanBittiming) : Int × List ExtCall :=
  match cif with
  | none => (-(CAN_ERROR_NULL_INTERFACE : Int), [])
  | some c =>
    if set_ret ≠ 0 then (-(CAN_ERROR_NL_SET_BIT_TIMING : Int), [ExtCall.nlSetDataBittiming])
    else if c.cfg.nl_cmd_verify then
      if get_ret ≠ 0 then
        (-(CAN_ERROR_NL_GET_BIT_TIMING : Int), [ExtCall.nlSetDataBittiming, ExtCall.nlGetDataBittiming])
      else if dbt ≠ dbt_read then
        (-(CAN_ERROR_NL_BT_MISSMATCH : Int), [ExtCall.nlSetDataBittiming, ExtCall.nlGetDataBittiming])
      else ((CAN_ERROR_NONE : Int), [ExtCall.nlSetDataBittiming, ExtCall.nlGetDataBittiming])
    else ((CAN_ERROR_NONE : Int), [ExtCall.nlSetDataBittiming])

/-- `ldx_can_set_ctrlmode`: `can_set_ctrlmode`, then, when verification
is enabled, `can_get_ctrlmode` and `memcmp` the structs. -/
def ldx_can_set_ctrlmode (cif : Option CanIf) (cm : CanCtrlmode) (set_ret : Int)
    (get_ret : Int) (cm_read : CanCtrlmode) : Int × List ExtCall :=
  match cif with
  | none => (-(CAN_ERROR_NULL_INTERFACE : Int), [])
  | some c =>
    if set_ret ≠ 0 then (-(CAN_ERROR_NL_SET_CTRL_MODE : Int), [ExtCall.nlSetCtrlmode])
    else if c.cfg.nl_cmd_verify then
      if get_ret ≠ 0 then
        (-(CAN_ERROR_NL_GET_CTRL_MODE : Int), [ExtCall.nlSetCtrlmode, ExtCall.nlGetCtrlmode])
      else if cm ≠ cm_read then
        (-(CAN_ERROR_NL_CTRL_MISSMATCH : Int), [ExtCall.nlSetCtrlmode, ExtCall.nlGetCtrlmode])
      else ((CAN_ERROR_NONE : Int), [ExtCall.nlSetCtrlmode, ExtCall.nlGetCtrlmode])
    else ((CAN_ERROR_NONE : Int), [ExtCall.nlSetCtrlmode])

/-! ## Sample fixtures used by concrete witnesses -/

/-- A sample bit timing value. -/
def sampleBt : CanBittiming :=
  { bitrate := 500000, sample_point := 875, tq := 125, prop_seg := 6,
    phase_seg1 := 7, phase_seg2 := 2, sjw := 1, brp := 4 }

/-- A second, different sample bit timing value. -/
def sampleBt2 : CanBittiming :=
  { bitrate := 250000, sample_point := 875, tq := 250, prop_seg := 6,
    phase_seg1 := 7, phase_seg2 := 2, sjw := 1, brp := 8 }

/-- A sample configuration with command verification enabled. -/
def sampleCfg : CanIfCfg :=
  { nl_cmd_verify := true, canfd_enabled := false, process_header := true,
    hw_timestamp := false, rx_buf_len := 0, tx_buf_len := 0,
    rx_buf_len_rd := 0, tx_buf_len_rd := 0, bitrate := 0, dbitrate := 0,
    restart_ms := 0, error_mask := 0, bit_timing := sampleBt,
    dbit_timing := sampleBt, ctrl_mode := { mask := 0, flags := 0 } }

/-- A sample interface handle named can0 with verification enabled. -/
def sampleIf : CanIf :=
  { name := "can0", cfg := sampleCfg, dropped_frames := 0,
    priv := { tx_skt := 3, can_fds := [3], maxfd := 3, rx_cbs := [], err_cbs := [] } }

/-- C2: for every setter and state-changing operation invoked on a handle
with verification enabled, when the underlying netlink set succeeds
(return 0) but the immediately following get succeeds with a value
different from the requested one, the operation returns the negative
mismatch-class code for that parameter, which is distinct from the
success code and from the generic set-failed code of that operation. -/
theorem setters_verify_mismatch (c : CanIf) (hv : c.cfg.nl_cmd_verify = true)
    (bitrate dbitrate rms rmsRead stS stP stR : Nat)
    (btReq btRead dbtReq dbtRead : CanBittiming) (cmReq cmRead : CanCtrlmode)
    (hbr : btRead.bitrate ≠ bitrate)
    (hdbr : dbtRead.bitrate ≠ dbitrate)
    (hrms : rms ≠ rmsRead)
    (hbt : btReq ≠ btRead)
    (hdbt : dbtReq ≠ dbtRead)
    (hcm : cmReq ≠ cmRead)
    (hstS : stS ≠ CAN_STATE_ERROR_ACTIVE)
    (hstP : stP ≠ CAN_STATE_STOPPED)
    (hstR : stR ≠ CAN_STATE_ERROR_ACTIVE) :
    ((ldx_can_set_bitrate (some c) bitrate 0 0 btRead).1 = -(CAN_ERROR_NL_BR_MISSMATCH : Int) ∧
     CAN_ERROR_NL_BR_MISSMATCH ≠ CAN_ERROR_NONE ∧
     CAN_ERROR_NL_BR_MISSMATCH ≠ CAN_ERROR_NL_BITRATE) ∧
    ((ldx_can_set_data_bitrate (some c) dbitrate 0 0 dbtRead).1 = -(CAN_ERROR_NL_BR_MISSMATCH : Int)) ∧
    ((ldx_can_set_restart_ms (some c) rms 0 0 rmsRead).1 = -(CAN_ERROR_NL_RSTMS_MISSMATCH : Int) ∧
     CAN_ERROR_NL_RSTMS_MISSMATCH ≠ CAN_ERROR_NONE ∧
     CAN_ERROR_NL_RSTMS_MISSMATCH ≠ CAN_ERROR_NL_SET_RESTART_MS) ∧
    ((ldx_can_set_bit_timing (some c) btReq 0 0 btRead).1 = -(CAN_ERROR_NL_BT_MISSMATCH : Int) ∧
     CAN_ERROR_NL_BT_MISSMATCH ≠ CAN_ERROR_NONE ∧
     CAN_ERROR_NL_BT_MISSMATCH ≠ CAN_ERROR_NL_SET_BIT_TIMING) ∧
    ((ldx_can_set_data_bit_timing (some c) dbtReq 0 0 dbtRead).1 = -(CAN_ERROR_NL_BT_MISSMATCH : Int)) ∧
    ((ldx_can_set_ctrlmode (some c) cmReq 0 0 cmRead).1 = -(CAN_ERROR_NL_CTRL_MISSMATCH : Int) ∧
     CAN_ERROR_NL_CTRL_MISSMATCH ≠ CAN_ERROR_NONE ∧
     CAN_ERROR_NL_CTRL_MISSMATCH ≠ CAN_ERROR_NL_SET_CTRL_MODE) ∧
    ((ldx_can_start (some c) 0 0 stS).1 = -(CAN_ERROR_NL_STATE_MISSMATCH : Int) ∧
     CAN_ERROR_NL_STATE_MISSMATCH ≠ CAN_ERROR_NONE ∧
     CAN_ERROR_NL_STATE_MISSMATCH ≠ CAN_ERROR_NL_START) ∧
    ((ldx_can_stop (some c) 0 0 stP).1 = -(CAN_ERROR_NL_STATE_MISSMATCH : Int) ∧
     CAN_ERROR_NL_STATE_MISSMATCH ≠ CAN_ERROR_NL_STOP) ∧
    ((ldx_can_restart (some c) 0 0 stR).1 = -(CAN_ERROR_NL_STATE_MISSMATCH : Int) ∧
     CAN_ERROR_NL_STATE_MISSMATCH ≠ CAN_ERROR_NL_RESTART) := by
  refine ⟨⟨?_, by decide, by decide⟩, ?_, ⟨?_, by decide, by decide⟩,
         ⟨?_, by decide, by decide⟩, ?_, ⟨?_, by decide, by decide⟩,
         ⟨?_, by decide, by decide⟩, ⟨?_, by decide⟩, ⟨?_, by decide⟩⟩
  · simp [ldx_can_set_bitrate, hv, hbr]
  · simp [ldx_can_set_data_bitrate, hv, hdbr]
  · simp [ldx_can_set_restart_ms, hv, hrms]
  · simp [ldx_can_set_bit_timing, hv, hbt]
  · simp [ldx_can_set_data_bit_timing, hv, hdbt]
  · simp [ldx_can_set_ctrlmode, hv, hcm]
  · simp [ldx_can_start, hv, hstS]
  · simp [ldx_can_stop, hv, hstP]
  · simp [ldx_can_restart, hv, hstR]

/-- Witness for `setters_verify_mismatch`: a concrete verified handle,
requesting bitrate 500000 while the readback says 250000, and a stop
whose readback state is 0 (ERROR_ACTIVE) instead of 4 (STOPPED). -/
theorem setters_verify_mismatch_witness :
    (ldx_can_set_bitrate (some sampleIf) 500000 0 0 sampleBt2).1 = -(CAN_ERROR_NL_BR_MISSMATCH : Int) ∧
    (ldx_can_stop (some sampleIf) 0 0 0).1 = -(CAN_ERROR_NL_STATE_MISSMATCH : Int) :=
  ⟨(setters_verify_mismatch sampleIf (by decide) 500000 125000 100 200 1 0 1
      sampleBt sampleBt2 sampleBt sampleBt2 ⟨0, 0⟩ ⟨1, 0⟩
      (by decide) (by decide) (by decide) (by decide) (by decide) (by decide)
      (by decide) (by decide) (by decide)).1.1,
   (setters_verify_mismatch sampleIf (by decide) 500000 125000 100 200 1 0 1
      sampleBt sampleBt2 sampleBt sampleBt2 ⟨0, 0⟩ ⟨1, 0⟩
      (by decide) (by decide) (by decide) (by decide) (by decide) (by decide)
      (by decide) (by decide) (by decide)).2.2.2.2.2.2.2.1.1⟩

/-! ## Frames and transmission (src/can.c lines 665-700) -/

/-- `struct canfd_frame`: identifier (with flag bits), payload length and
payload bytes. -/
structure CanFrame where
  can_id : Nat
  len : Nat
  data : List Nat
deriving DecidableEq, Repr

/-- `ldx_can_tx_frame`: null check; on FD-enabled handles canonicalize
the payload length and use the FD MTU; issue the kernel `write`, whose
outcome `(write_ret, errn)` is supplied by the caller of the model; map
the outcome to a return code exactly as the source if-chain does.
Returns the code, the (possibly length-rewritten) frame, and the
attempted external calls. -/
def ldx_can_tx_frame (cif : Option CanIf) (frame : CanFrame) (write_ret : Int)
    (errn : Nat) : Int × CanFrame × List ExtCall :=
  match cif with
  | none => (-(CAN_ERROR_NULL_INTERFACE : Int), frame, [])
  | some c =>
    let frame2 := if c.cfg.canfd_enabled then { frame with len := can_dlc2len (CAN_LEN2DLC frame.len) } else frame
    let mtu : Int := if c.cfg.canfd_enabled then (CANFD_MTU : Int) else (CAN_MTU : Int)
    let r : Int :=
      if write_ret = -1 then
        if errn = ENOBUFS ∨ errn = EAGAIN then -(CAN_ERROR_TX_RETRY_LATER : Int)
        else (CAN_ERROR_NONE : Int)
      else if write_ret < 0 then -(CAN_ERROR_TX_SKT_WR : Int)
      else if write_ret < mtu then -(CAN_ERROR_INCOMP_FRAME : Int)
      else (CAN_ERROR_NONE : Int)
    (r, frame2, [ExtCall.sktWrite])

/-- A sample classic frame with identifier 0x123 and 8 payload bytes. -/
def sampleFrame : CanFrame := { can_id := 0x123, len := 8, data := [1, 2, 3, 4, 5, 6, 7, 8] }

/-- A sample FD-enabled handle. -/
def sampleFdIf : CanIf :=
  { sampleIf with cfg := { sampleCfg with canfd_enabled := true } }

/-- C3: over payload lengths 0..64, the FD canonicalization used by
`ldx_can_tx_frame` maps every length to the least canonical length not
below it (so 9..11 map to 12, 13..16 to 16, and so on), fixes canonical
lengths, is idempotent; and transmitting on an FD-enabled handle indeed
rewrites the outgoing frame length through exactly this map. -/
theorem fd_len_canonicalization (len : Nat) (hlen : len ≤ 64)
    (c : CanIf) (hfd : c.cfg.canfd_enabled = true)
    (f : CanFrame) (wr : Int) (en : Nat) :
    canonFdLen len ∈ canonicalFdLens ∧
    len ≤ canonFdLen len ∧
    (∀ m ∈ canonicalFdLens, len ≤ m → canonFdLen len ≤ m) ∧
    (len ∈ canonicalFdLens → canonFdLen len = len) ∧
    canonFdLen (canonFdLen len) = canonFdLen len ∧
    (ldx_can_tx_frame (some c) f wr en).2.1.len = canonFdLen f.len := by
  obtain ⟨h1, h2, h3, h4, h5⟩ := canonFdLen_table_correct len hlen
  refine ⟨h1, h2, h3, h4, h5, ?_⟩
  simp [ldx_can_tx_frame, hfd, canonFdLen]

/-- Witness for `fd_len_canonicalization`: length 9 on a concrete FD
handle canonicalizes to 12, and tx on the FD handle rewrites the frame
length of an 8-byte frame to 8 (already canonical). -/
theorem fd_len_canonicalization_witness :
    canonFdLen 9 ∈ canonicalFdLens ∧
    (ldx_can_tx_frame (some sampleFdIf) sampleFrame 72 0).2.1.len = canonFdLen sampleFrame.len :=
  ⟨(fd_len_canonicalization 9 (by decide) sampleFdIf (by decide) sampleFrame 72 0).1,
   (fd_len_canonicalization 9 (by decide) sampleFdIf (by decide) sampleFrame 72 0).2.2.2.2.2⟩

/-- C4: evaluation of `ldx_can_tx_frame` at the failing input: a kernel
write that fails with `ret == -1` and an errno outside
{ENOBUFS, EAGAIN} (here EIO = 5) falls through the source if-chain and
returns the success code 0 — the `-CAN_ERROR_TX_SKT_WR` branch is
unreachable for a POSIX write, which reports failure only as -1.  The
backpressure and short-write cases do return their distinct codes. -/
theorem tx_frame_failed_write_returns_success :
    (ldx_can_tx_frame (some sampleIf) sampleFrame (-1) 5).1 = (CAN_ERROR_NONE : Int) ∧
    (ldx_can_tx_frame (some sampleIf) sampleFrame (-1) ENOBUFS).1 = -(CAN_ERROR_TX_RETRY_LATER : Int) ∧
    (ldx_can_tx_frame (some sampleIf) sampleFrame (-1) EAGAIN).1 = -(CAN_ERROR_TX_RETRY_LATER : Int) ∧
    (ldx_can_tx_frame (some sampleIf) sampleFrame 8 0).1 = -(CAN_ERROR_INCOMP_FRAME : Int) ∧
    (ldx_can_tx_frame (some sampleIf) sampleFrame 16 0).1 = (CAN_ERROR_NONE : Int) := by
  refine ⟨by decide, by decide, by decide, by decide, by decide⟩

/-! ## Dispatch-loop receive processing (src/can.c lines 137-298) -/

/-- `struct timeval`. -/
structure Timeval where
  tv_sec : Int
  tv_usec : Int
deriving DecidableEq, Repr

/-- One `recvmsg` result on a receive socket: the frame, the ancillary
timestamp (if a timestamping control message is present) and the
ancillary dropped-frame counter (0 when absent). -/
structure FrameIn where
  frame : CanFrame
  anc_tstamp : Option Timeval
  dropf : Nat
deriving DecidableEq, Repr

/-- Outcome of one `recvmsg` call in the drain loop. -/
inductive RecvOutcome where
  | fail (errn : Nat)
  | drained
  | ok (fi : FrameIn)
deriving DecidableEq, Repr

/-- An observable callback invocation made by the dispatch loop. -/
inductive CanEvent where
  | errCb (handler : Nat) (error : Nat)
  | rxCb (handler : Nat) (f : CanFrame) (ts : Timeval)
deriving DecidableEq, Repr

/-- State threaded through one drain call of `ldx_can_process_rx_socket`:
the handle's dropped-frame counter and the local `tstamp` variable. -/
structure RxProcState where
  dropped_frames : Nat
  tstamp : Timeval
deriving DecidableEq, Repr

/-- `ldx_can_call_err_cb`: invoke every error callback in the registry
whose handler is non-null with the given error code. -/
def ldx_can_call_err_cb (ehs : List ErrCb) (error : Nat) : List CanEvent :=
  ehs.filterMap (fun e => e.handler.map (fun h => CanEvent.errCb h error))

/-- State update of the per-frame body: when header processing is on,
`process_can_process_msgheader` overwrites the local `tstamp` from the
ancillary data (when present) and a non-zero dropped-frame count is
recorded on the handle. -/
def processOneFrameState (ph : Bool) (st : RxProcState) (fi : FrameIn) : RxProcState :=
  if ph then
    { dropped_frames := if fi.dropf ≠ 0 then fi.dropf else st.dropped_frames
      tstamp := match fi.anc_tstamp with
                | some t => t
                | none => st.tstamp }
  else st

/-- Callback invocations of the per-frame body, in source order:
dropped-frames notification (header processing on and non-zero count),
then error-frame notification (identifier carries `CAN_ERR_FLAG`), then
the receive-callback invocation, which the source performs
unconditionally whenever the handler is non-null. -/
def processOneFrameEvents (ph : Bool) (ehs : List ErrCb) (rxh : Option Nat)
    (st : RxProcState) (fi : FrameIn) : List CanEvent :=
  (if ph ∧ fi.dropf ≠ 0 then ldx_can_call_err_cb ehs CAN_ERROR_DROPPED_FRAMES else []) ++
  ((if fi.frame.can_id &&& CAN_ERR_FLAG ≠ 0 then ldx_can_call_err_cb ehs fi.frame.can_id else []) ++
   (match rxh with
    | some h => [CanEvent.rxCb h fi.frame (processOneFrameState ph st fi).tstamp]
    | none => []))

/-- The per-frame body of the `ldx_can_process_rx_socket` drain loop:
header processing (timestamp extraction, dropped-frame accounting and
notification), then error-frame notification, then the unconditional
receive-callback invocation. -/
def processOneFrame (ph : Bool) (ehs : List ErrCb) (rxh : Option Nat)
    (st : RxProcState) (fi : FrameIn) : RxProcState × List CanEvent :=
  (processOneFrameState ph st fi, processOneFrameEvents ph ehs rxh st fi)

/-- `ldx_can_process_rx_socket`: drain the registration's socket.  The
supplied list gives the successive `recvmsg` outcomes; the drain stops
at the first failure (returning the network-down code only for
ENETDOWN) or at a zero-byte read. -/
def ldx_can_process_rx_socket (ph : Bool) (ehs : List ErrCb) (rxh : Option Nat)
    (st : RxProcState) : List RecvOutcome → Int × RxProcState × List CanEvent
  | [] => ((CAN_ERROR_NONE : Int), st, [])
  | RecvOutcome.fail errn :: _ =>
      (if errn = ENETDOWN then -(CAN_ERROR_NETWORK_DOWN : Int) else (CAN_ERROR_NONE : Int), st, [])
  | RecvOutcome.drained :: _ => ((CAN_ERROR_NONE : Int), st, [])
  | RecvOutcome.ok fi :: rest =>
      let pr := processOneFrame ph ehs rxh st fi
      let r := ldx_can_process_rx_socket ph ehs rxh pr.1 rest
      (r.1, r.2.1, pr.2 ++ r.2.2)

/-- Membership in `ldx_can_call_err_cb`: every registered non-null error
handler is invoked with the given code. -/
theorem mem_call_err_cb {ehs : List ErrCb} {h code : Nat}
    (hm : ErrCb.mk (some h) ∈ ehs) :
    CanEvent.errCb h code ∈ ldx_can_call_err_cb ehs code := by
  simp only [ldx_can_call_err_cb, List.mem_filterMap]
  exact ⟨ErrCb.mk (some h), hm, rfl⟩

/-- C1 (amended): for every frame processed by the rx drain loop, if the
identifier carries the error-frame flag then every registered non-null
error callback is invoked with the identifier as the error code AND the
registration's receive callback is additionally invoked (the source has
no else: the receive invocation is unconditional); if the flag is
absent, the receive callback is invoked with the frame and the captured
timestamp. -/
theorem rx_frame_error_flag_callbacks (ph : Bool) (ehs : List ErrCb)
    (rxh : Option Nat) (st : RxProcState) (fi : FrameIn) :
    (fi.frame.can_id &&& CAN_ERR_FLAG ≠ 0 →
      (∀ h, ErrCb.mk (some h) ∈ ehs →
        CanEvent.errCb h fi.frame.can_id ∈ (processOneFrame ph ehs rxh st fi).2) ∧
      (∀ h, rxh = some h →
        CanEvent.rxCb h fi.frame (processOneFrame ph ehs rxh st fi).1.tstamp ∈
          (processOneFrame ph ehs rxh st fi).2)) ∧
    (fi.frame.can_id &&& CAN_ERR_FLAG = 0 →
      ∀ h, rxh = some h →
        CanEvent.rxCb h fi.frame (processOneFrame ph ehs rxh st fi).1.tstamp ∈
          (processOneFrame ph ehs rxh st fi).2) := by
  constructor
  · intro hflag
    constructor
    · intro h hm
      show CanEvent.errCb h fi.frame.can_id ∈ processOneFrameEvents ph ehs rxh st fi
      unfold processOneFrameEvents
      refine List.mem_append_right _ (List.mem_append_left _ ?_)
      rw [if_pos hflag]
      exact mem_call_err_cb hm
    · intro h hrx
      subst hrx
      show _ ∈ processOneFrameEvents ph ehs (some h) st fi
      unfold processOneFrameEvents
      exact List.mem_append_right _ (List.mem_append_right _ (List.mem_singleton.mpr rfl))
  · intro hflag h hrx
    subst hrx
    show _ ∈ processOneFrameEvents ph ehs (some h) st fi
    unfold processOneFrameEvents
    exact List.mem_append_right _ (List.mem_append_right _ (List.mem_singleton.mpr rfl))

/-- An error frame: identifier consisting of exactly the error flag. -/
def errorFrame : CanFrame := { can_id := CAN_ERR_FLAG, len := 0, data := [] }

/-- C1 counterexample to the claim as stated: draining a socket that
delivers one error-flagged frame, with one registered error callback
(id 0) and receive callback id 1, the loop DOES invoke the receive
callback on that frame, contrary to the claim that it is not invoked. -/
theorem rx_error_frame_rx_cb_invoked_cex :
    errorFrame.can_id &&& CAN_ERR_FLAG ≠ 0 ∧
    CanEvent.rxCb 1 errorFrame ⟨0, 0⟩ ∈
      (ldx_can_process_rx_socket true [ErrCb.mk (some 0)] (some 1)
        ⟨0, ⟨0, 0⟩⟩ [RecvOutcome.ok ⟨errorFrame, none, 0⟩, RecvOutcome.drained]).2.2 ∧
    CanEvent.errCb 0 errorFrame.can_id ∈
      (ldx_can_process_rx_socket true [ErrCb.mk (some 0)] (some 1)
        ⟨0, ⟨0, 0⟩⟩ [RecvOutcome.ok ⟨errorFrame, none, 0⟩, RecvOutcome.drained]).2.2 := by
  refine ⟨by decide, by decide, by decide⟩

/-- Witness for `rx_frame_error_flag_callbacks` at the concrete error
frame: both the error callback and the receive callback fire. -/
theorem rx_frame_error_flag_callbacks_witness :
    CanEvent.errCb 0 errorFrame.can_id ∈
      (processOneFrame true [ErrCb.mk (some 0)] (some 1) ⟨0, ⟨0, 0⟩⟩
        ⟨errorFrame, none, 0⟩).2 ∧
    CanEvent.rxCb 1 errorFrame
      (processOneFrame true [ErrCb.mk (some 0)] (some 1) ⟨0, ⟨0, 0⟩⟩
        ⟨errorFrame, none, 0⟩).1.tstamp ∈
      (processOneFrame true [ErrCb.mk (some 0)] (some 1) ⟨0, ⟨0, 0⟩⟩
        ⟨errorFrame, none, 0⟩).2 :=
  ⟨((rx_frame_error_flag_callbacks true [ErrCb.mk (some 0)] (some 1) ⟨0, ⟨0, 0⟩⟩
      ⟨errorFrame, none, 0⟩).1 (by decide)).1 0 (by decide),
   ((rx_frame_error_flag_callbacks true [ErrCb.mk (some 0)] (some 1) ⟨0, ⟨0, 0⟩⟩
      ⟨errorFrame, none, 0⟩).1 (by decide)).2 1 rfl⟩

/-! ## Callback registries (src/can.c lines 702-1029) -/

/-- `find_errcb_by_function`: linear scan for the first entry whose
handler equals the given callback. -/
def find_errcb_by_function (cb : Nat) (l : List ErrCb) : Option ErrCb :=
  l.find? (fun e => e.handler = some cb)

/-- `find_rxcb_by_function`: linear scan for the first entry whose
handler equals the given callback. -/
def find_rxcb_by_function (cb : Nat) (l : List RxCb) : Option RxCb :=
  l.find? (fun e => e.handler = some cb)

/-- Number of receive registrations with the given callback identity. -/
def countRx (cb : Nat) (l : List RxCb) : Nat :=
  (l.filter (fun e => e.handler = some cb)).length

/-- Number of error registrations with the given callback identity. -/
def countErr (cb : Nat) (l : List ErrCb) : Nat :=
  (l.filter (fun e => e.handler = some cb)).length

/-- `list_del` on the node returned by the find: remove the first entry
with the given callback identity. -/
def removeFirstRx (cb : Nat) : List RxCb → List RxCb
  | [] => []
  | e :: t => if e.handler = some cb then t else e :: removeFirstRx cb t

/-- Remove the first error entry with the given callback identity. -/
def removeFirstErr (cb : Nat) : List ErrCb → List ErrCb
  | [] => []
  | e :: t => if e.handler = some cb then t else e :: removeFirstErr cb t

/-- `ldx_can_register_error_handler`: null check, mutex lock, duplicate
check, allocation, prepend (`list_add`).  On success the source returns
the 0 left in `ret` by the successful lock. -/
def ldx_can_register_error_handler (cif : Option CanIf) (cb : Nat)
    (lock_ret : Int) (malloc_ok : Bool) : Int × Option CanIf :=
  match cif with
  | none => (-(CAN_ERROR_NULL_INTERFACE : Int), none)
  | some c =>
    if lock_ret ≠ 0 then (-(CAN_ERROR_THREAD_MUTEX_LOCK : Int), some c)
    else
      match find_errcb_by_function cb c.priv.err_cbs with
      | some _ => (-(CAN_ERROR_ERR_CB_ALR_REG : Int), some c)
      | none =>
        if ¬malloc_ok then (-(CAN_ERROR_NO_MEM : Int), some c)
        else (0, some { c with priv := { c.priv with
                err_cbs := ErrCb.mk (some cb) :: c.priv.err_cbs } })

/-- `ldx_can_unregister_error_handler`: null check, mutex lock, find,
not-found rejection, unlink and free. -/
def ldx_can_unregister_error_handler (cif : Option CanIf) (cb : Nat)
    (lock_ret : Int) : Int × Option CanIf :=
  match cif with
  | none => (-(CAN_ERROR_NULL_INTERFACE : Int), none)
  | some c =>
    if lock_ret ≠ 0 then (-(CAN_ERROR_THREAD_MUTEX_LOCK : Int), some c)
    else
      match find_errcb_by_function cb c.priv.err_cbs with
      | none => (-(CAN_ERROR_ERR_CB_NOT_FOUND : Int), some c)
      | some _ =>
        (0, some { c with priv := { c.priv with
              err_cbs := removeFirstErr cb c.priv.err_cbs } })

/-- Outcomes of the system calls `ldx_can_register_rx_handler` may
issue, in source order. -/
structure RxRegOracle where
  lock_ret : Int
  malloc_ok : Bool
  skt : Int
  fcntl_ret : Int
  tstamp_ret : Int
  canfd_ret : Int
  rcvbufforce_ret : Int
  rcvbuf_ret : Int
  getrcvbuf_ret : Int
  errflt_ret : Int
  rawflt_ret : Int
  bind_ret : Int
deriving Repr

/-- `ldx_can_register_rx_handler`: null check, mutex lock, duplicate
check, allocation, socket creation and configuration (timestamping when
header processing is on, FD frames, receive-buffer sizing with the
privileged force option first, error filter, acceptance filters, bind),
then `FD_SET`, `maxfd` update and prepend into the registry.  Returns
the code, the updated handle and the descriptors of sockets created
during the call. -/
def ldx_can_register_rx_handler (cif : Option CanIf) (cb : Nat)
    (filtersNonNull : Bool) (nfilters : Int) (o : RxRegOracle) :
    Int × Option CanIf × List Nat :=
  match cif with
  | none => (-(CAN_ERROR_NULL_INTERFACE : Int), none, [])
  | some c =>
    if o.lock_ret ≠ 0 then (-(CAN_ERROR_THREAD_MUTEX_LOCK : Int), some c, [])
    else
      match find_rxcb_by_function cb c.priv.rx_cbs with
      | some _ => (-(CAN_ERROR_RX_CB_ALR_REG : Int), some c, [])
      | none =>
        if ¬o.malloc_ok then (-(CAN_ERROR_NO_MEM : Int), some c, [])
        else if o.skt < 0 then (-(CAN_ERROR_RX_SKT_CREATE : Int), some c, [])
        else
          let fd := o.skt.toNat
          if o.fcntl_ret ≠ 0 then (o.fcntl_ret, some c, [fd])
          else if c.cfg.process_header ∧ o.tstamp_ret ≠ 0 then
            (-(CAN_ERROR_SETSKTOPT_TIMESTAMP : Int), some c, [fd])
          else if c.cfg.canfd_enabled ∧ o.canfd_ret < 0 then
            (-(CAN_ERROR_SETSKTOPT_CANFD : Int), some c, [fd])
          else if c.cfg.rx_buf_len ≠ 0 ∧ o.rcvbufforce_ret < 0 ∧ o.rcvbuf_ret < 0 then
            (-(CAN_ERROR_SETSKTOPT_RCVBUF : Int), some c, [fd])
          else if c.cfg.rx_buf_len ≠ 0 ∧ o.getrcvbuf_ret < 0 then
            (-(CAN_ERROR_GETSKTOPT_RCVBUF : Int), some c, [fd])
          else if c.cfg.error_mask ≠ 0 ∧ o.errflt_ret < 0 then
            (-(CAN_ERROR_SETSKTOPT_ERR_FLT : Int), some c, [fd])
          else if (nfilters > 0 ∧ filtersNonNull) ∧ o.rawflt_ret ≠ 0 then
            (-(CAN_ERROR_SETSKTOPT_RAW_FLT : Int), some c, [fd])
          else if o.bind_ret < 0 then (-(CAN_ERROR_RX_SKT_BIND : Int), some c, [fd])
          else
            (0, some { c with priv := { c.priv with
                  can_fds := fdSet fd c.priv.can_fds
                  maxfd := if fd > c.priv.maxfd then fd else c.priv.maxfd
                  rx_cbs := RxCb.mk (some cb) fd :: c.priv.rx_cbs } }, [fd])

/-- `ldx_can_unregister_rx_handler`: null check, mutex lock, find,
not-found rejection, `FD_CLR` of the entry's descriptor, close, unlink
and free. -/
def ldx_can_unregister_rx_handler (cif : Option CanIf) (cb : Nat)
    (lock_ret : Int) : Int × Option CanIf :=
  match cif with
  | none => (-(CAN_ERROR_NULL_INTERFACE : Int), none)
  | some c =>
    if lock_ret ≠ 0 then (-(CAN_ERROR_THREAD_MUTEX_LOCK : Int), some c)
    else
      match find_rxcb_by_function cb c.priv.rx_cbs with
      | none => (-(CAN_ERROR_RX_CB_NOT_FOUND : Int), some c)
      | some e =>
        (0, some { c with priv := { c.priv with
              can_fds := fdClr e.rx_skt c.priv.can_fds
              rx_cbs := removeFirstRx cb c.priv.rx_cbs } })

/-- A positive identity count means the linear scan finds an entry. -/
theorem find_rxcb_isSome_of_countRx_pos {cb : Nat} {l : List RxCb}
    (h : 0 < countRx cb l) : (find_rxcb_by_function cb l).isSome := by
  induction l with
  | nil => simp [countRx] at h
  | cons e t ih =>
    by_cases he : e.handler = some cb
    · simp [find_rxcb_by_function, List.find?, he]
    · have ht : 0 < countRx cb t := by
        simpa [countRx, List.filter, he] using h
      simpa [find_rxcb_by_function, List.find?, he] using ih ht

/-- A positive identity count means the linear scan finds an entry. -/
theorem find_errcb_isSome_of_countErr_pos {cb : Nat} {l : List ErrCb}
    (h : 0 < countErr cb l) : (find_errcb_by_function cb l).isSome := by
  induction l with
  | nil => simp [countErr] at h
  | cons e t ih =>
    by_cases he : e.handler = some cb
    · simp [find_errcb_by_function, List.find?, he]
    · have ht : 0 < countErr cb t := by
        simpa [countErr, List.filter, he] using h
      simpa [find_errcb_by_function, List.find?, he] using ih ht

/-- Removing the first matching entry decrements the identity count. -/
theorem countRx_removeFirstRx (cb : Nat) (l : List RxCb) :
    countRx cb (removeFirstRx cb l) = countRx cb l - 1 := by
  induction l with
  | nil => simp [removeFirstRx, countRx]
  | cons e t ih =>
    by_cases he : e.handler = some cb
    · simp [removeFirstRx, countRx, List.filter, he]
    · simpa [removeFirstRx, countRx, List.filter, he] using ih

/-- C5: with the mutex acquired and the identity already registered
exactly once (in the receive registry, resp. the error registry), a
second registration of the same identity fails with the corresponding
already-registered code, leaves the handle state — and hence the single
matching entry and the readiness set — unchanged, and creates no
socket. -/
theorem register_duplicate_rejected (c : CanIf) (cb cb2 : Nat)
    (filtersNonNull : Bool) (nfilters : Int) (o : RxRegOracle)
    (lock2 : Int) (malloc2 : Bool)
    (hlock : o.lock_ret = 0) (hlock2 : lock2 = 0)
    (hrx : countRx cb c.priv.rx_cbs = 1)
    (herr : countErr cb2 c.priv.err_cbs = 1) :
    ldx_can_register_rx_handler (some c) cb filtersNonNull nfilters o =
      (-(CAN_ERROR_RX_CB_ALR_REG : Int), some c, []) ∧
    ldx_can_register_error_handler (some c) cb2 lock2 malloc2 =
      (-(CAN_ERROR_ERR_CB_ALR_REG : Int), some c) := by
  obtain ⟨e, he⟩ := Option.isSome_iff_exists.mp
    (@find_rxcb_isSome_of_countRx_pos cb c.priv.rx_cbs (by omega))
  obtain ⟨e2, he2⟩ := Option.isSome_iff_exists.mp
    (@find_errcb_isSome_of_countErr_pos cb2 c.priv.err_cbs (by omega))
  constructor
  · simp [ldx_can_register_rx_handler, hlock, he]
  · simp [ldx_can_register_error_handler, hlock2, he2]

/-- A handle with one registered receive callback (id 5, socket 7) and
one registered error callback (id 9). -/
def regSampleIf : CanIf :=
  { sampleIf with priv := { sampleIf.priv with
      can_fds := [3, 7], maxfd := 7,
      rx_cbs := [RxCb.mk (some 5) 7],
      err_cbs := [ErrCb.mk (some 9)] } }

/-- A benign oracle for a registration call: lock succeeds, allocation
succeeds, socket 8 is created, every configuration call succeeds. -/
def okRegOracle : RxRegOracle :=
  { lock_ret := 0, malloc_ok := true, skt := 8, fcntl_ret := 0,
    tstamp_ret := 0, canfd_ret := 0, rcvbufforce_ret := 0, rcvbuf_ret := 0,
    getrcvbuf_ret := 0, errflt_ret := 0, rawflt_ret := 0, bind_ret := 0 }

/-- Witness for `register_duplicate_rejected` on `regSampleIf`:
re-registering rx id 5 and error id 9 both fail, unchanged state, no
socket created. -/
theorem register_duplicate_rejected_witness :
    ldx_can_register_rx_handler (some regSampleIf) 5 false 0 okRegOracle =
      (-(CAN_ERROR_RX_CB_ALR_REG : Int), some regSampleIf, []) ∧
    ldx_can_register_error_handler (some regSampleIf) 9 0 true =
      (-(CAN_ERROR_ERR_CB_ALR_REG : Int), some regSampleIf) :=
  register_duplicate_rejected regSampleIf 5 9 false 0 okRegOracle 0 true
    rfl rfl (by decide) (by decide)

/-- C6: unregistering a receive callback with the mutex acquired: when
the linear scan finds the entry and the identity is registered exactly
once, the call succeeds, afterwards the receive registry holds zero
entries with that identity and the entry's socket descriptor is no
longer in the readiness set; when the scan finds nothing, the call
returns the not-found code and the handle is unchanged. -/
theorem unregister_rx_removes_entry (c : CanIf) (cb : Nat) :
    (∀ e, find_rxcb_by_function cb c.priv.rx_cbs = some e →
      countRx cb c.priv.rx_cbs = 1 →
      ∃ c2, ldx_can_unregister_rx_handler (some c) cb 0 = (0, some c2) ∧
        countRx cb c2.priv.rx_cbs = 0 ∧
        e.rx_skt ∉ c2.priv.can_fds) ∧
    (find_rxcb_by_function cb c.priv.rx_cbs = none →
      ldx_can_unregister_rx_handler (some c) cb 0 =
        (-(CAN_ERROR_RX_CB_NOT_FOUND : Int), some c)) := by
  constructor
  · intro e he hcount
    refine ⟨{ c with priv := { c.priv with
        can_fds := fdClr e.rx_skt c.priv.can_fds
        rx_cbs := removeFirstRx cb c.priv.rx_cbs } }, ?_, ?_, ?_⟩
    · simp [ldx_can_unregister_rx_handler, he]
    · simp [countRx_removeFirstRx, hcount]
    · simp [fdClr, List.mem_filter]
  · intro hnone
    simp [ldx_can_unregister_rx_handler, hnone]

/-- Witness for `unregister_rx_removes_entry` on `regSampleIf`:
unregistering rx id 5 succeeds with socket 7 removed from the readiness
set, and unregistering the absent id 6 fails with not-found and leaves
the handle unchanged. -/
theorem unregister_rx_removes_entry_witness :
    (∃ c2, ldx_can_unregister_rx_handler (some regSampleIf) 5 0 = (0, some c2) ∧
      countRx 5 c2.priv.rx_cbs = 0 ∧
      (RxCb.mk (some 5) 7).rx_skt ∉ c2.priv.can_fds) ∧
    ldx_can_unregister_rx_handler (some regSampleIf) 6 0 =
      (-(CAN_ERROR_RX_CB_NOT_FOUND : Int), some regSampleIf) :=
  ⟨(unregister_rx_removes_entry regSampleIf 5).1 (RxCb.mk (some 5) 7)
      (by decide) (by decide),
   (unregister_rx_removes_entry regSampleIf 6).2 (by decide)⟩

/-! ## Interface release (src/can.c lines 641-663) -/

/-- The actions `ldx_can_free` may perform, in order of appearance in
the source. -/
inductive FreeEvent where
  | mutexLock
  | mutexDestroy
  | threadCancel
  | threadJoin
  | stopIface
  | closeFd (fd : Nat)
  | freeEntry
  | freePriv
  | freeHandle
deriving DecidableEq, Repr

/-- `ldx_can_free`: a null handle is an immediate EXIT_SUCCESS; otherwise
the source locks and then destroys the mutex, cancels the dispatch
thread (it never joins it), calls `ldx_can_stop` (logging a failure but
keeping its return value), closes the transmit socket only, frees the
private block and the handle, and returns the stop result. -/
def ldx_can_free (cif : Option CanIf) (stop_ret : Int) (getstate_ret : Int)
    (state : Nat) : Int × List FreeEvent :=
  match cif with
  | none => (0, [])
  | some c =>
    ((ldx_can_stop (some c) stop_ret getstate_ret state).1,
     [FreeEvent.mutexLock, FreeEvent.mutexDestroy, FreeEvent.threadCancel,
      FreeEvent.stopIface, FreeEvent.closeFd c.priv.tx_skt,
      FreeEvent.freePriv, FreeEvent.freeHandle])

/-- C7 counterexample to the claim as stated: freeing a handle that has
one registered receive callback whose dedicated socket is descriptor 7
never closes that socket (only the transmit socket, descriptor 3, is
closed), never joins the dispatch thread, and a stop failure is
propagated as the return value rather than absorbed. -/
theorem free_skips_rx_sockets_cex :
    regSampleIf.priv.rx_cbs = [RxCb.mk (some 5) 7] ∧
    FreeEvent.closeFd 7 ∉ (ldx_can_free (some regSampleIf) 0 0 CAN_STATE_STOPPED).2 ∧
    FreeEvent.threadJoin ∉ (ldx_can_free (some regSampleIf) 0 0 CAN_STATE_STOPPED).2 ∧
    (ldx_can_free (some regSampleIf) 1 0 CAN_STATE_STOPPED).1 =
      -(CAN_ERROR_NL_STOP : Int) := by
  refine ⟨by decide, by decide, by decide, by decide⟩

/-- C7 (amended): freeing a null handle is a no-op success; freeing a
non-null handle performs exactly lock-mutex, destroy-mutex,
cancel-thread (without joining), stop-interface, close of the transmit
socket, free of the private block and free of the handle, and returns
the result of the stop call; registered receive sockets other than the
transmit descriptor are never closed. -/
theorem free_releases_handle (c : CanIf) (stop_ret getstate_ret : Int) (state : Nat) :
    ldx_can_free none stop_ret getstate_ret state = (0, []) ∧
    (ldx_can_free (some c) stop_ret getstate_ret state).1 =
      (ldx_can_stop (some c) stop_ret getstate_ret state).1 ∧
    (ldx_can_free (some c) stop_ret getstate_ret state).2 =
      [FreeEvent.mutexLock, FreeEvent.mutexDestroy, FreeEvent.threadCancel,
       FreeEvent.stopIface, FreeEvent.closeFd c.priv.tx_skt,
       FreeEvent.freePriv, FreeEvent.freeHandle] ∧
    FreeEvent.threadJoin ∉ (ldx_can_free (some c) stop_ret getstate_ret state).2 ∧
    (∀ e ∈ c.priv.rx_cbs, e.rx_skt ≠ c.priv.tx_skt →
      FreeEvent.closeFd e.rx_skt ∉ (ldx_can_free (some c) stop_ret getstate_ret state).2) := by
  refine ⟨rfl, rfl, rfl, by simp [ldx_can_free], ?_⟩
  intro e _ hne
  simp [ldx_can_free, hne]

/-- Witness for `free_releases_handle` on `regSampleIf` (receive socket
7, transmit socket 3). -/
theorem free_releases_handle_witness :
    (ldx_can_free (some regSampleIf) 0 0 CAN_STATE_STOPPED).1 =
      (ldx_can_stop (some regSampleIf) 0 0 CAN_STATE_STOPPED).1 ∧
    FreeEvent.closeFd (RxCb.mk (some 5) 7).rx_skt ∉
      (ldx_can_free (some regSampleIf) 0 0 CAN_STATE_STOPPED).2 :=
  ⟨(free_releases_handle regSampleIf 0 0 CAN_STATE_STOPPED).2.1,
   (free_releases_handle regSampleIf 0 0 CAN_STATE_STOPPED).2.2.2.2
     (RxCb.mk (some 5) 7) (by decide) (by decide)⟩

/-! ## ldx_can_init (src/can.c lines 353-587) -/

/-- The default error handler registered by init
(`ldx_can_default_error_handler`), modelled as callback identity 0. -/
def DEFAULT_ERROR_HANDLER : Nat := 0

/-- Outcomes of every external call `ldx_can_init` may issue, in source
order: the five conditional configuration applies (each with the set
result, the verifying get result and the read-back value), the start
call, then the transmit-socket setup chain and the dispatch-thread
setup. -/
structure InitOracle where
  br_set : Int
  br_get : Int
  br_read : CanBittiming
  dbr_set : Int
  dbr_get : Int
  dbr_read : CanBittiming
  rms_set : Int
  rms_get : Int
  rms_read : Nat
  rms2_set : Int
  rms2_get : Int
  rms2_read : Nat
  cm_set : Int
  cm_get : Int
  cm_read : CanCtrlmode
  start_ret : Int
  start_get : Int
  start_state : Nat
  tx_skt : Int
  ifindex : Nat
  fcntl_ret : Int
  mtu_ret : Int
  mtu : Nat
  canfd_ret : Int
  rawflt_ret : Int
  sndbufforce_ret : Int
  sndbuf_ret : Int
  getsndbuf_ret : Int
  errflt_ret : Int
  bind_ret : Int
  reg_lock : Int
  reg_malloc : Bool
  thr_present : Bool
  thr_malloc : Bool
  mutex_init_ret : Int
  thr_create_ret : Int

/-- Configuration-apply phase of `ldx_can_init`: apply bitrate, data
bitrate, restart-ms (and, in the source's bit-timing branch, restart-ms
again — that branch calls `ldx_can_set_restart_ms`, not the bit-timing
setter), and control mode when their sentinels say they are configured,
then start the interface. -/
def initApplyConfig (c : CanIf) (cfg : CanIfCfg) (o : InitOracle) : Int × List ExtCall :=
  let br := ldx_can_set_bitrate (some c) cfg.bitrate o.br_set o.br_get o.br_read
  if cfg.bitrate ≠ LDX_CAN_INVALID_BITRATE ∧ br.1 ≠ 0 then (br.1, br.2) else
  let t0 := if cfg.bitrate ≠ LDX_CAN_INVALID_BITRATE then br.2 else []
  let dbr := ldx_can_set_data_bitrate (some c) cfg.dbitrate o.dbr_set o.dbr_get o.dbr_read
  if cfg.dbitrate ≠ LDX_CAN_INVALID_BITRATE ∧ dbr.1 ≠ 0 then (dbr.1, t0 ++ dbr.2) else
  let t1 := t0 ++ (if cfg.dbitrate ≠ LDX_CAN_INVALID_BITRATE then dbr.2 else [])
  let rms := ldx_can_set_restart_ms (some c) cfg.restart_ms o.rms_set o.rms_get o.rms_read
  if cfg.restart_ms ≠ LDX_CAN_INVALID_RESTART_MS ∧ rms.1 ≠ 0 then (rms.1, t1 ++ rms.2) else
  let t2 := t1 ++ (if cfg.restart_ms ≠ LDX_CAN_INVALID_RESTART_MS then rms.2 else [])
  let rms2 := ldx_can_set_restart_ms (some c) cfg.restart_ms o.rms2_set o.rms2_get o.rms2_read
  if cfg.bit_timing.bitrate ≠ 0 ∧ rms2.1 ≠ 0 then (rms2.1, t2 ++ rms2.2) else
  let t3 := t2 ++ (if cfg.bit_timing.bitrate ≠ 0 then rms2.2 else [])
  let cm := ldx_can_set_ctrlmode (some c) cfg.ctrl_mode o.cm_set o.cm_get o.cm_read
  if cfg.ctrl_mode.mask ≠ LDX_CAN_UNCONFIGURED_MASK ∧ cm.1 ≠ 0 then (cm.1, t3 ++ cm.2) else
  let t4 := t3 ++ (if cfg.ctrl_mode.mask ≠ LDX_CAN_UNCONFIGURED_MASK then cm.2 else [])
  let sres := ldx_can_start (some c) o.start_ret o.start_get o.start_state
  if sres.1 ≠ 0 then (sres.1, t4 ++ sres.2) else
  (0, t4 ++ sres.2)

/-- Transmit-socket option phase of `ldx_can_init`, after a successful
socket creation and fcntl: FD-capability check and enablement, receive
filter disabling, send-buffer sizing (privileged force option first),
error-class filter, bind.  Error traces end with the close performed by
the source's unwind label.  The not-FD-capable slip of the source —
`ret = CAN_ERROR_NOT_CANFD` without negation — is kept as is. -/
def initTxSocketOpts (cfg : CanIfCfg) (o : InitOracle) (fd : Nat) : Int × List ExtCall :=
  if cfg.canfd_enabled ∧ o.mtu_ret < 0 then
    (-(CAN_ERROR_SIOCGIFMTU : Int), [ExtCall.sktIoctl, ExtCall.sktClose fd]) else
  if cfg.canfd_enabled ∧ o.mtu ≠ CANFD_MTU then
    ((CAN_ERROR_NOT_CANFD : Int), [ExtCall.sktIoctl, ExtCall.sktClose fd]) else
  if cfg.canfd_enabled ∧ o.canfd_ret < 0 then
    (-(CAN_ERROR_SETSKTOPT_CANFD : Int),
      [ExtCall.sktIoctl, ExtCall.sktSetsockopt, ExtCall.sktClose fd]) else
  let t8 := if cfg.canfd_enabled then [ExtCall.sktIoctl, ExtCall.sktSetsockopt] else []
  if o.rawflt_ret < 0 then
    (-(CAN_ERROR_SETSKTOPT_RAW_FLT : Int), t8 ++ [ExtCall.sktSetsockopt, ExtCall.sktClose fd]) else
  let t9 := t8 ++ [ExtCall.sktSetsockopt]
  if cfg.tx_buf_len ≠ 0 ∧ o.sndbufforce_ret < 0 ∧ o.sndbuf_ret < 0 then
    (-(CAN_ERROR_SETSKTOPT_SNDBUF : Int),
      t9 ++ [ExtCall.sktSetsockopt, ExtCall.sktSetsockopt, ExtCall.sktClose fd]) else
  if cfg.tx_buf_len ≠ 0 ∧ o.getsndbuf_ret < 0 then
    (-(CAN_ERROR_GETSKTOPT_SNDBUF : Int),
      t9 ++ (if o.sndbufforce_ret < 0 then [ExtCall.sktSetsockopt, ExtCall.sktSetsockopt]
             else [ExtCall.sktSetsockopt]) ++ [ExtCall.sktGetsockopt, ExtCall.sktClose fd]) else
  let t10 := t9 ++ (if cfg.tx_buf_len ≠ 0 then
      (if o.sndbufforce_ret < 0 then [ExtCall.sktSetsockopt, ExtCall.sktSetsockopt]
       else [ExtCall.sktSetsockopt]) ++ [ExtCall.sktGetsockopt] else [])
  if cfg.error_mask ≠ 0 ∧ o.errflt_ret < 0 then
    (-(CAN_ERROR_SETSKTOPT_ERR_FLT : Int), t10 ++ [ExtCall.sktSetsockopt, ExtCall.sktClose fd]) else
  let t11 := t10 ++ (if cfg.error_mask ≠ 0 then [ExtCall.sktSetsockopt] else [])
  if o.bind_ret < 0 then
    (-(CAN_ERROR_TX_SKT_BIND : Int), t11 ++ [ExtCall.sktBind, ExtCall.sktClose fd]) else
  (0, t11 ++ [ExtCall.sktBind])

/-- `ldx_can_init`: null check; copy the configuration into the handle;
apply the configuration phase; create, flag and configure the transmit
socket; seed the readiness set with it; register the default error
handler; and create the dispatch thread when absent.  Returns the code,
the updated handle and the external-call trace. -/
def ldx_can_init (cif : Option CanIf) (cfg : CanIfCfg) (o : InitOracle) :
    Int × Option CanIf × List ExtCall :=
  match cif with
  | none => (-(CAN_ERROR_NULL_INTERFACE : Int), none, [])
  | some c0 =>
    let c := { c0 with cfg := cfg }
    let cp := initApplyConfig c cfg o
    if cp.1 ≠ 0 then (cp.1, some c, cp.2) else
    if o.tx_skt < 0 then (-(CAN_ERROR_TX_SKT_CREATE : Int), some c, cp.2 ++ [ExtCall.sktCreate]) else
    let fd := o.tx_skt.toNat
    let t6 := cp.2 ++ [ExtCall.sktCreate]
    if o.ifindex = 0 then
      (-(CAN_ERROR_IFR_IDX : Int), some c, t6 ++ [ExtCall.sktClose fd]) else
    if o.fcntl_ret ≠ 0 then
      (o.fcntl_ret, some c, t6 ++ [ExtCall.sktFcntl, ExtCall.sktClose fd]) else
    let t7 := t6 ++ [ExtCall.sktFcntl]
    let so := initTxSocketOpts cfg o fd
    if so.1 ≠ 0 then (so.1, some c, t7 ++ so.2) else
    let t12 := t7 ++ so.2
    let c2 := { c with priv := { c.priv with tx_skt := fd, can_fds := [fd], maxfd := fd } }
    let reg := ldx_can_register_error_handler (some c2) DEFAULT_ERROR_HANDLER o.reg_lock o.reg_malloc
    if reg.1 < 0 then
      (-(CAN_ERROR_REG_ERR_HDLR : Int), some c2, t12 ++ [ExtCall.sktClose fd]) else
    let c3 := reg.2.getD c2
    if o.thr_present then (0, some c3, t12) else
    if ¬o.thr_malloc then
      (-(CAN_ERROR_THREAD_ALLOC : Int), some c3, t12 ++ [ExtCall.sktClose fd]) else
    if o.mutex_init_ret ≠ 0 then
      (-(CAN_ERROR_THREAD_MUTEX_INIT : Int), some c3, t12 ++ [ExtCall.sktClose fd]) else
    if o.thr_create_ret ≠ 0 then
      (-(CAN_ERROR_THREAD_CREATE : Int), some c3, t12 ++ [ExtCall.sktClose fd]) else
    (0, some c3, t12)

/-- C8: every public operation taking an interface handle — the netlink
getters, start/stop/restart, the six setters, tx_frame, init and the
four register/unregister operations — rejects a null handle with the
null-interface error before attempting any netlink or socket call
(empty external-call trace, no state, no socket created). -/
theorem null_interface_rejected
    (g1 g2 g3 sr gr : Int) (st : Nat) (br rms : Nat)
    (bt btr : CanBittiming) (cm cmr : CanCtrlmode)
    (f : CanFrame) (wr : Int) (en : Nat) (cfg : CanIfCfg) (o : InitOracle)
    (cb : Nat) (fl : Bool) (nf : Int) (ro : RxRegOracle) (lk : Int) (mo : Bool) :
    ldx_can_get_state none g1 = (-(CAN_ERROR_NULL_INTERFACE : Int), []) ∧
    ldx_can_get_dev_stats none g2 = (-(CAN_ERROR_NULL_INTERFACE : Int), []) ∧
    ldx_can_get_bit_error_counter none g3 = (-(CAN_ERROR_NULL_INTERFACE : Int), []) ∧
    ldx_can_start none sr gr st = (-(CAN_ERROR_NULL_INTERFACE : Int), []) ∧
    ldx_can_stop none sr gr st = (-(CAN_ERROR_NULL_INTERFACE : Int), []) ∧
    ldx_can_restart none sr gr st = (-(CAN_ERROR_NULL_INTERFACE : Int), []) ∧
    ldx_can_set_bitrate none br sr gr btr = (-(CAN_ERROR_NULL_INTERFACE : Int), []) ∧
    ldx_can_set_data_bitrate none br sr gr btr = (-(CAN_ERROR_NULL_INTERFACE : Int), []) ∧
    ldx_can_set_restart_ms none rms sr gr rms = (-(CAN_ERROR_NULL_INTERFACE : Int), []) ∧
    ldx_can_set_bit_timing none bt sr gr btr = (-(CAN_ERROR_NULL_INTERFACE : Int), []) ∧
    ldx_can_set_data_bit_timing none bt sr gr btr = (-(CAN_ERROR_NULL_INTERFACE : Int), []) ∧
    ldx_can_set_ctrlmode none cm sr gr cmr = (-(CAN_ERROR_NULL_INTERFACE : Int), []) ∧
    ldx_can_tx_frame none f wr en = (-(CAN_ERROR_NULL_INTERFACE : Int), f, []) ∧
    ldx_can_init none cfg o = (-(CAN_ERROR_NULL_INTERFACE : Int), none, []) ∧
    ldx_can_register_rx_handler none cb fl nf ro = (-(CAN_ERROR_NULL_INTERFACE : Int), none, []) ∧
    ldx_can_unregister_rx_handler none cb lk = (-(CAN_ERROR_NULL_INTERFACE : Int), none) ∧
    ldx_can_register_error_handler none cb lk mo = (-(CAN_ERROR_NULL_INTERFACE : Int), none) ∧
    ldx_can_unregister_error_handler none cb lk = (-(CAN_ERROR_NULL_INTERFACE : Int), none) := by
  refine ⟨rfl, rfl, rfl, rfl, rfl, rfl, rfl, rfl, rfl, rfl, rfl, rfl, rfl, rfl, rfl, rfl, rfl, rfl⟩
